import Mathlib

/-!
Verification development for the flood-demo kiosk.

Shallow embedding of the simulation / scoring / synchronization core of the
repository:

* `src/app/routes/control.tsx` — closed-form ETA predictor, PM demo mode.
* `src/app/routes/control-lite.tsx` — likelihood smoothing, status buckets,
  subsiding override, windowed ETA countdown, scripted demo phases.
* `src/app/routes/river-ov.tsx` (sensorBus) — publish/subscribe transport with
  a durable per-kind cache.
* sky overlay (`normalizeSky`) — field-by-field coercion of incoming
  snapshots.

JS numbers are modelled as rationals (`ℚ`); non-finite JS values (`NaN`, the
infinities, `undefined` coerced through `Number`) are modelled explicitly
where the code branches on finiteness.  `Math.round` is modelled as
`⌊x + 1/2⌋` (JS rounds half-ups toward +∞) and `Math.floor` as `⌊x⌋`.
-/

namespace FloodDemo

/-! ### control.tsx — constants and closed-form ETA predictor -/

/-- `FLOOD_LEVEL = 1.00` (m), the simulated overflow level (control.tsx). -/
def FLOOD_LEVEL : ℚ := 1

/-- `ALPHA.level = 0.05`, the per-tick easing fraction of the river level. -/
def ALPHA_level : ℚ := 5 / 100

/-- `TICK_MS = 200` in control.tsx (physics tick). -/
def TICK_MS_control : ℚ := 200

/-- Result of `etaToFloodSeconds`.  The source returns a JS `number` that is
either `Number.POSITIVE_INFINITY` (`noFlood`), the literal `0`
(`seconds 0`), or `Math.max(0, n * (TICK_MS / 1000))` with
`n = Math.log(deltaFlood / d0) / Math.log(1 - ALPHA.level)`.  The last
branch is kept symbolic as `formulaSeconds deltaFlood d0`, carrying the
exact arguments of the logarithmic formula: no claim depends on its
numeric value, only on which branch is taken. -/
inductive EtaResult where
  | noFlood : EtaResult
  | seconds (s : ℚ) : EtaResult
  | formulaSeconds (deltaFlood d0 : ℚ) : EtaResult
deriving DecidableEq, Repr

/-- `etaToFloodSeconds` (control.tsx lines 60–68), branch-faithful:

```ts
const deltaFlood = targetLevel - FLOOD_LEVEL;
if (deltaFlood <= 0) return Number.POSITIVE_INFINITY;
const d0 = targetLevel - currentLevel;
if (d0 <= deltaFlood) return 0;
const n = Math.log(deltaFlood / d0) / Math.log(1 - a);
return Math.max(0, n * (TICK_MS / 1000));
```
-/
def etaToFloodSeconds (currentLevel targetLevel : ℚ) : EtaResult :=
  let deltaFlood := targetLevel - FLOOD_LEVEL
  if deltaFlood ≤ 0 then EtaResult.noFlood
  else
    let d0 := targetLevel - currentLevel
    if d0 ≤ deltaFlood then EtaResult.seconds 0
    else EtaResult.formulaSeconds deltaFlood d0

/-! ### control-lite.tsx — likelihood smoothing and step clamp -/

/-- `EMA_ALPHA = 0.25` (control-lite.tsx). -/
def EMA_ALPHA : ℚ := 1 / 4

/-- `MAX_STEP = 4` (max likelihood change in % per tick, control-lite.tsx). -/
def MAX_STEP : ℚ := 4

/-- One likelihood update (control-lite.tsx lines 207–214):

```ts
const ema = prev + EMA_ALPHA * (rawLikelihood - prev);
const clamped = Math.max(prev - MAX_STEP, Math.min(prev + MAX_STEP, ema));
```
-/
def lkUpdate (prev raw : ℚ) : ℚ :=
  let ema := prev + EMA_ALPHA * (raw - prev)
  max (prev - MAX_STEP) (min (prev + MAX_STEP) ema)

/-! ### control-lite.tsx — status classification -/

/-- `FloodStage` (control-lite.tsx). -/
inductive FloodStage where
  | normal | watch | warning | danger | subsiding
deriving DecidableEq, Repr

/-- `StatusLabel` (control-lite.tsx). -/
inductive StatusLabel where
  | NORMAL | WATCH | WARNING | DANGER | SUBSIDING
deriving DecidableEq, Repr

/-- `SimPhase` (control-lite.tsx). -/
inductive SimPhase where
  | idle | rampUp | peakHold | rampDown
deriving DecidableEq, Repr

/-- `stageToStatusLabel` (control-lite.tsx lines 75–81). -/
def stageToStatusLabel : FloodStage → StatusLabel
  | FloodStage.normal => StatusLabel.NORMAL
  | FloodStage.watch => StatusLabel.WATCH
  | FloodStage.warning => StatusLabel.WARNING
  | FloodStage.danger => StatusLabel.DANGER
  | FloodStage.subsiding => StatusLabel.SUBSIDING

/-- `BUCKETS` thresholds (control-lite.tsx lines 44–51). -/
def BUCKETS_WATCH_MIN : ℤ := 40

/-- `BUCKETS.WARNING_MIN = 70`. -/
def BUCKETS_WARNING_MIN : ℤ := 70

/-- `BUCKETS.DANGER_MIN = 80`. -/
def BUCKETS_DANGER_MIN : ℤ := 80

/-- JS `Math.round`: rounds to the nearest integer, ties toward +∞,
i.e. `⌊x + 1/2⌋`. -/
def jsRound (q : ℚ) : ℤ := ⌊q + 1 / 2⌋

/-- The likelihood bucket (control-lite.tsx lines 238–242):

```ts
const p = Math.round(lk);
if (p >= BUCKETS.DANGER_MIN) setStage("danger");
else if (p >= BUCKETS.WARNING_MIN) setStage("warning");
else if (p >= BUCKETS.WATCH_MIN) setStage("watch");
else setStage("normal");
```
Takes the already-rounded integer `p`. -/
def stageBucket (p : ℤ) : FloodStage :=
  if BUCKETS_DANGER_MIN ≤ p then FloodStage.danger
  else if BUCKETS_WARNING_MIN ≤ p then FloodStage.warning
  else if BUCKETS_WATCH_MIN ≤ p then FloodStage.watch
  else FloodStage.normal

/-- Modelled from the spec: the bucket table as the spec words it, lowest to
highest — NORMAL for p < 40, WATCH for 40 ≤ p ≤ 69, WARNING for
70 ≤ p ≤ 79, DANGER for p ≥ 80 — written as a contiguous, exhaustive
cascade.  Used only as the comparison point for the refinement claim C3. -/
def specBucketTable (p : ℤ) : FloodStage :=
  if p < 40 then FloodStage.normal
  else if p ≤ 69 then FloodStage.watch
  else if p ≤ 79 then FloodStage.warning
  else FloodStage.danger

/-! ### control-lite.tsx — sensors, baseline tolerance, stage effect -/

/-- The `Sensors` record (control-lite.tsx lines 19–32). -/
structure Sensors where
  airTemp : ℚ
  humidity : ℚ
  level : ℚ
  flow : ℚ
  pressure : ℚ
  wind : ℚ
  soil : ℚ
  turbidity : ℚ
  waterTemp : ℚ
  upstreamLevel : ℚ
  rainRate : ℚ
  dischargeQ : ℚ
deriving DecidableEq, Repr

/-- `BASE` sensor baselines (control-lite.tsx lines 86–99). -/
def BASE : Sensors :=
  { airTemp := 31
    humidity := 70
    level := 12 / 10
    flow := 8 / 10
    pressure := 1008
    wind := 15 / 10
    soil := 25
    turbidity := 10
    waterTemp := 29
    upstreamLevel := 11 / 10
    rainRate := 0
    dischargeQ := 96 }

/-- `BASELINE_EPS = 0.03` (3% per-sensor tolerance, control-lite.tsx). -/
def BASELINE_EPS : ℚ := 3 / 100

/-- `approxEqual(a, b, epsAbs)` (control-lite.tsx lines 111–113). -/
def approxEqual (a b epsAbs : ℚ) : Bool := |a - b| ≤ epsAbs

/-- The `close` computation of the stage effect (control-lite.tsx lines
219–230): every tracked metric within `|BASE.metric| * BASELINE_EPS` of its
baseline, rain rate within an absolute 1.0.  (`dischargeQ` is not
tracked by the source.) -/
def nearBaseline (S : Sensors) : Bool :=
  approxEqual S.airTemp BASE.airTemp (|BASE.airTemp| * BASELINE_EPS) &&
  approxEqual S.humidity BASE.humidity (|BASE.humidity| * BASELINE_EPS) &&
  approxEqual S.level BASE.level (|BASE.level| * BASELINE_EPS) &&
  approxEqual S.flow BASE.flow (|BASE.flow| * BASELINE_EPS) &&
  approxEqual S.pressure BASE.pressure (|BASE.pressure| * BASELINE_EPS) &&
  approxEqual S.wind BASE.wind (|BASE.wind| * BASELINE_EPS) &&
  approxEqual S.soil BASE.soil (|BASE.soil| * BASELINE_EPS) &&
  approxEqual S.turbidity BASE.turbidity (|BASE.turbidity| * BASELINE_EPS) &&
  approxEqual S.waterTemp BASE.waterTemp (|BASE.waterTemp| * BASELINE_EPS) &&
  approxEqual S.upstreamLevel BASE.upstreamLevel
    (|BASE.upstreamLevel| * BASELINE_EPS) &&
  approxEqual S.rainRate BASE.rainRate 1

/-- State written by the stage effect (control-lite.tsx lines 217–251):
the derived stage, the demo phase, the ETA display pair, and the one-shot
danger alert flag. -/
structure StageEffectResult where
  stage : FloodStage
  phase : SimPhase
  etaSeconds : Option ℤ
  etaNow : Bool
  dangerAlerted : Bool
deriving DecidableEq, Repr

/-- The stage effect (control-lite.tsx lines 217–251):

```ts
if (phase === "rampDown" && !close) { setStage("subsiding"); return; }
const p = Math.round(lk);
<bucket cascade>
if (phase === "rampDown" && close) {
  setPhase("idle"); setEtaSeconds(null); setEtaNow(false);
  dangerAlertedRef.current = false;
}
```
`close` is passed in as `nearBaseline S`. -/
def stageEffect (phase : SimPhase) (close : Bool) (lk : ℚ)
    (etaSeconds : Option ℤ) (etaNow dangerAlerted : Bool) :
    StageEffectResult :=
  if phase = SimPhase.rampDown ∧ close = false then
    { stage := FloodStage.subsiding
      phase := phase
      etaSeconds := etaSeconds
      etaNow := etaNow
      dangerAlerted := dangerAlerted }
  else
    let stage := stageBucket (jsRound lk)
    if phase = SimPhase.rampDown ∧ close = true then
      { stage := stage
        phase := SimPhase.idle
        etaSeconds := none
        etaNow := false
        dangerAlerted := false }
    else
      { stage := stage
        phase := phase
        etaSeconds := etaSeconds
        etaNow := etaNow
        dangerAlerted := dangerAlerted }

/-- `statusLabel` (control-lite.tsx lines 433–436):

```ts
phase === "rampDown" && stage === "subsiding" ? "SUBSIDING"
  : stageToStatusLabel[stage]
```
-/
def statusLabel (phase : SimPhase) (stage : FloodStage) : StatusLabel :=
  if phase = SimPhase.rampDown ∧ stage = FloodStage.subsiding then
    StatusLabel.SUBSIDING
  else stageToStatusLabel stage

/-! ### control.tsx — PM demo mode restart -/

/-- `PMState` (control.tsx line 93). -/
inductive PMState where
  | idle | rampingUp | waitingFlood | holding | rampingDown
deriving DecidableEq, Repr

/-- The PM-mode state of the control surface: the rain level, the PM phase,
whether the ramp interval and the hold timeout are currently scheduled
(handles abstracted to activity flags), and the one-shot
`didStartHoldRef` flag. -/
structure PMControlState where
  rain : ℚ
  pm : PMState
  rampActive : Bool
  holdActive : Bool
  didStartHold : Bool
deriving DecidableEq, Repr

/-- `clearRamp()` (control.tsx lines 193–195). -/
def clearRamp (s : PMControlState) : PMControlState :=
  { s with rampActive := false }

/-- `clearHold()` (control.tsx lines 196–198). -/
def clearHold (s : PMControlState) : PMControlState :=
  { s with holdActive := false }

/-- `resetPM()` (control.tsx line 199):
`clearRamp(); clearHold(); didStartHoldRef.current = false; setPm("idle")`. -/
def resetPM (s : PMControlState) : PMControlState :=
  { clearHold (clearRamp s) with didStartHold := false, pm := PMState.idle }

/-- `startPMMode` (control.tsx lines 203–216): full reset, rain to 0, enter
rampingUp, start a fresh ramp interval. -/
def startPMMode (s : PMControlState) : PMControlState :=
  let s1 := resetPM s
  { s1 with rain := 0, pm := PMState.rampingUp, rampActive := true }

/-! ### control-lite.tsx — start-demo handler -/

/-- The demo-control state touched by `onStartDemo` (control-lite.tsx
lines 422–430), together with the countdown / peak-hold timer activity
flags of the surface (which the handler leaves untouched). -/
structure LiteDemoState where
  phase : SimPhase
  etaSeconds : Option ℤ
  etaNow : Bool
  dangerAlerted : Bool
  rampUpSince : Option ℚ
  dangerSince : Option ℚ
  countdownActive : Bool
  peakHoldActive : Bool
deriving DecidableEq, Repr

/-- `onStartDemo` (control-lite.tsx lines 422–430):

```ts
setPhase("rampUp"); setEtaSeconds(null); setEtaNow(false);
dangerAlertedRef.current = false;
rampUpSinceRef.current = performance.now();
dangerSinceRef.current = null;
```
`now` is the `performance.now()` timestamp of the click. -/
def onStartDemo (now : ℚ) (s : LiteDemoState) : LiteDemoState :=
  { s with
    phase := SimPhase.rampUp
    etaSeconds := none
    etaNow := false
    dangerAlerted := false
    rampUpSince := some now
    dangerSince := none }

/-! ### control-lite.tsx — windowed ETA countdown -/

/-- `COUNTDOWN_START_PCT = 95` (control-lite.tsx). -/
def COUNTDOWN_START_PCT : ℚ := 95

/-- `COUNTDOWN_START_S = 20` (control-lite.tsx). -/
def COUNTDOWN_START_S : ℤ := 20

/-- `PEAK_NOW_PCT = 99` (control-lite.tsx). -/
def PEAK_NOW_PCT : ℚ := 99

/-- The ETA display state of the scripted surface: the countdown value
(`etaSeconds`), the "now" flag (`etaNow`), and whether the 1-second
countdown interval is currently scheduled (`countdownTimerRef`
abstracted to an activity flag). -/
structure EtaState where
  etaSeconds : Option ℤ
  etaNow : Bool
  countdownActive : Bool
deriving DecidableEq, Repr

/-- The ETA countdown effect (control-lite.tsx lines 254–301), run with the
current smoothed likelihood `p = lkRef.current`:

```ts
if (etaNow) { clearCountdown(); return; }
if (p >= COUNTDOWN_START_PCT && p < PEAK_NOW_PCT && etaSeconds == null) {
  setEtaSeconds(COUNTDOWN_START_S); <start interval>;
}
if (p >= PEAK_NOW_PCT) { setEtaNow(true); setEtaSeconds(null); clearCountdown(); }
if (p < COUNTDOWN_START_PCT && etaSeconds != null) { setEtaSeconds(null); clearCountdown(); }
```
The three guarded updates have mutually exclusive guards on `p`
(`[95, 99)`, `[99, ∞)`, `(-∞, 95)`), so the sequential ifs are modelled
as a cascade. -/
def etaEffect (p : ℚ) (st : EtaState) : EtaState :=
  if st.etaNow = true then { st with countdownActive := false }
  else if COUNTDOWN_START_PCT ≤ p ∧ p < PEAK_NOW_PCT ∧ st.etaSeconds = none then
    { st with etaSeconds := some COUNTDOWN_START_S, countdownActive := true }
  else if PEAK_NOW_PCT ≤ p then
    { etaSeconds := none, etaNow := true, countdownActive := false }
  else if p < COUNTDOWN_START_PCT ∧ st.etaSeconds ≠ none then
    { st with etaSeconds := none, countdownActive := false }
  else st

/-- One firing of the 1-second countdown interval (control-lite.tsx lines
274–281):

```ts
setEtaSeconds(prev => {
  if (prev == null) return null;
  if (prev <= 1) return 1;   // pin at 1 (edge case protection)
  return prev - 1;
});
```
-/
def countdownTick : Option ℤ → Option ℤ
  | none => none
  | some prev => if prev ≤ 1 then some 1 else some (prev - 1)

/-- A concrete ETA display state with no countdown and no "now" flag. -/
def idleEta : EtaState :=
  { etaSeconds := none, etaNow := false, countdownActive := false }

/-- A concrete ETA display state with a live countdown at 7 seconds. -/
def countingEta : EtaState :=
  { etaSeconds := some 7, etaNow := false, countdownActive := true }

/-! ### control-lite.tsx — transition system over the ETA display state -/

/-- The scripted surface's state relevant to the ETA invariant: the demo
phase and the ETA display state. -/
structure SysState where
  phase : SimPhase
  eta : EtaState
deriving DecidableEq, Repr

/-- Initial state of the scripted surface (control-lite.tsx useState
initialisers): phase idle, no countdown, no "now" flag, no timer. -/
def initState : SysState :=
  { phase := SimPhase.idle
    eta := { etaSeconds := none, etaNow := false, countdownActive := false } }

/-- The events of the scripted surface that write the ETA display state
(control-lite.tsx):

* `etaUpdate` — the ETA countdown effect (lines 254–301);
* `countTick` — a firing of the live countdown interval (lines 273–282);
* `peakEnter` — the rampUp → peakHold transition (lines 393–397):
  ETA forced to "now", countdown value cleared;
* `peakExit` — the peak-hold timeout (lines 399–404): phase to rampDown,
  "now" flag and countdown value cleared;
* `stageIdle` — the stage effect finishing rampDown (lines 245–250):
  phase to idle, ETA display cleared;
* `startDemo` — the start-demo handler (lines 422–430). -/
inductive SysStep : SysState → SysState → Prop where
  | etaUpdate (p : ℚ) (s : SysState) :
      SysStep s { s with eta := etaEffect p s.eta }
  | countTick (s : SysState) (h : s.eta.countdownActive = true) :
      SysStep s
        { s with eta := { s.eta with etaSeconds := countdownTick s.eta.etaSeconds } }
  | peakEnter (s : SysState) (h : s.phase = SimPhase.rampUp) :
      SysStep s
        { phase := SimPhase.peakHold
          eta := { etaSeconds := none, etaNow := true,
                   countdownActive := s.eta.countdownActive } }
  | peakExit (s : SysState) (h : s.phase = SimPhase.peakHold) :
      SysStep s
        { phase := SimPhase.rampDown
          eta := { etaSeconds := none, etaNow := false,
                   countdownActive := s.eta.countdownActive } }
  | stageIdle (s : SysState) (h : s.phase = SimPhase.rampDown) :
      SysStep s
        { phase := SimPhase.idle
          eta := { etaSeconds := none, etaNow := false,
                   countdownActive := s.eta.countdownActive } }
  | startDemo (s : SysState) :
      SysStep s
        { phase := SimPhase.rampUp
          eta := { etaSeconds := none, etaNow := false,
                   countdownActive := s.eta.countdownActive } }

/-- A state of the scripted surface is reachable when some finite sequence of
events leads to it from the initial state. -/
def SysReachable (s : SysState) : Prop :=
  Relation.ReflTransGen SysStep initState s

/-! ### sensorBus — publish/subscribe transport with durable cache -/

/-- `RiverSensors` (sensorBus, river-ov.tsx companion module). -/
structure RiverSensors where
  waterLevelM : ℚ
  flowRateMs : ℚ
  rainfallMmHr : ℚ
  tempC : ℚ
  humidityPct : ℚ
  pressureHpa : ℚ
deriving DecidableEq, Repr

/-- The `SkyData` payload published over the bus (sensorBus): likelihood,
ETA seconds, and an optional status string. -/
structure BusSkyData where
  floodLikelihoodPct : ℚ
  etaSeconds : ℚ
  status : Option String
deriving DecidableEq, Repr

/-- A durable cache record `{ t, data }` as written to localStorage by the
publishers. -/
structure CacheRecord (α : Type) where
  t : ℚ
  data : α
deriving DecidableEq, Repr

/-- The durable key-per-kind store: `fs_river_sensors` and `fs_sky`. -/
structure DurableStore where
  river : Option (CacheRecord RiverSensors)
  sky : Option (CacheRecord BusSkyData)
deriving DecidableEq, Repr

/-- `publishSensors` (sensorBus lines 214–222): broadcasts on the live
channel and overwrites the `fs_river_sensors` cache record with
`{ t: Date.now(), data }`.  Only the durable-store effect is modelled. -/
def publishSensors (store : DurableStore) (t : ℚ) (d : RiverSensors) :
    DurableStore :=
  { store with river := some { t := t, data := d } }

/-- `publishSky` (sensorBus lines 265–272): same for the `fs_sky` record. -/
def publishSky (store : DurableStore) (t : ℚ) (d : BusSkyData) :
    DurableStore :=
  { store with sky := some { t := t, data := d } }

/-- The deliveries `addSensorsListener` (sensorBus lines 224–255) makes to a
fresh callback at subscription time: it reads the `fs_river_sensors`
record once and, if a record with a data field is cached, calls the
callback with it exactly once; live-channel and storage-event deliveries
only happen on later publishes. -/
def addSensorsListenerImmediate (store : DurableStore) : List RiverSensors :=
  match store.river with
  | some r => [r.data]
  | none => []

/-- The deliveries `addSkyListener` (sensorBus lines 275–305) makes at
subscription time, from the `fs_sky` record. -/
def addSkyListenerImmediate (store : DurableStore) : List BusSkyData :=
  match store.sky with
  | some r => [r.data]
  | none => []

/-! ### sky overlay — snapshot coercion (`normalizeSky`) -/

/-- A JS number as seen by `Number(...)` coercion: either finite or one of
the non-finite values (`NaN` also stands for `Number(undefined)`, the
coercion of an absent field). -/
inductive JsNum where
  | finite (q : ℚ) : JsNum
  | nan : JsNum
  | posInf : JsNum
  | negInf : JsNum
deriving DecidableEq, Repr

/-- `Number.isFinite` on the modelled JS number. -/
def jsIsFinite : JsNum → Bool
  | JsNum.finite _ => true
  | _ => false

/-- The runtime value of the incoming `status` field: a string (of any
content — the cast `as SkyData["status"]` does not restrict it), or any
non-string value (undefined, a number, null, ...). -/
inductive JsStatusVal where
  | jstr (s : String) : JsStatusVal
  | notStr : JsStatusVal
deriving DecidableEq, Repr

/-- An incoming (possibly malformed or partial) sky snapshot as it reaches
`normalizeSky`: each numeric field is already coerced through
`Number(...)`. -/
structure SkyInput where
  floodLikelihoodPct : JsNum
  etaSeconds : JsNum
  status : JsStatusVal
deriving DecidableEq, Repr

/-- The sky overlay's held `SkyData` state.  All reachable stored numeric
values are integers (the initial state is `{ 10, 600 }` and
`normalizeSky` rounds/floors), so the fields are modelled as `ℤ`; the
status can be any string at runtime, or absent. -/
structure SkyData where
  floodLikelihoodPct : ℤ
  etaSeconds : ℤ
  status : Option String
deriving DecidableEq, Repr

/-- `normalizeSky(input, prev)` (sky overlay, lines 30–37):

```ts
const pct = Number(input?.floodLikelihoodPct);
const eta = Number(input?.etaSeconds);
const floodLikelihoodPct = Number.isFinite(pct)
  ? Math.min(100, Math.max(0, Math.round(pct))) : prev.floodLikelihoodPct;
const etaSeconds = Number.isFinite(eta)
  ? Math.max(0, Math.floor(eta)) : prev.etaSeconds;
const status = (typeof input?.status === "string")
  ? input!.status : prev.status;
```
-/
def normalizeSky (input : SkyInput) (prev : SkyData) : SkyData :=
  { floodLikelihoodPct :=
      match input.floodLikelihoodPct with
      | JsNum.finite q => min 100 (max 0 (jsRound q))
      | _ => prev.floodLikelihoodPct
    etaSeconds :=
      match input.etaSeconds with
      | JsNum.finite q => max 0 ⌊q⌋
      | _ => prev.etaSeconds
    status :=
      match input.status with
      | JsStatusVal.jstr s => some s
      | JsStatusVal.notStr => prev.status }

/-- The sky overlay's initial held state (`useState` initialiser):
likelihood 10, ETA 600 s, status NORMAL. -/
def prevSkyData : SkyData :=
  { floodLikelihoodPct := 10, etaSeconds := 600, status := some ("NORMAL") }

/-- A concrete incoming snapshot whose likelihood field is finite but out of
range (150%), with a non-string status. -/
def outOfRangeSkyInput : SkyInput :=
  { floodLikelihoodPct := JsNum.finite 150
    etaSeconds := JsNum.finite 600
    status := JsStatusVal.notStr }

/-- A concrete incoming snapshot whose numeric fields are both `NaN` and
whose status is a string outside the NORMAL/WATCH/WARNING/DANGER enum. -/
def garbledSkyInput : SkyInput :=
  { floodLikelihoodPct := JsNum.nan
    etaSeconds := JsNum.nan
    status := JsStatusVal.jstr ("BOGUS") }

end FloodDemo

namespace FloodDemo

/-- C1: as stated, the claim asserts `etaToFloodSeconds` returns 0 whenever
`currentLevel > FLOOD_LEVEL`, regardless of the target.  It is false: with
`currentLevel = 1.5 > FLOOD_LEVEL` and `targetLevel = 0.5 ≤ FLOOD_LEVEL`,
the first branch (`deltaFlood ≤ 0`) fires and the function returns
positive infinity, not 0. -/
theorem c1_eta_now_counterexample :
    FLOOD_LEVEL < (3 : ℚ) / 2 ∧
      etaToFloodSeconds ((3 : ℚ) / 2) ((1 : ℚ) / 2) = EtaResult.noFlood ∧
      etaToFloodSeconds ((3 : ℚ) / 2) ((1 : ℚ) / 2) ≠ EtaResult.seconds 0 := by
  have h : etaToFloodSeconds ((3 : ℚ) / 2) ((1 : ℚ) / 2) = EtaResult.noFlood := by
    unfold etaToFloodSeconds
    rw [if_pos (by norm_num [FLOOD_LEVEL])]
  refine ⟨by norm_num [FLOOD_LEVEL], h, ?_⟩
  rw [h]
  intro hc
  exact EtaResult.noConfusion hc

/-- C1 (amended): for every pair of inputs, if the current level exceeds
`FLOOD_LEVEL` and the target level also exceeds `FLOOD_LEVEL` (so the
early "no event expected" branch does not fire), `etaToFloodSeconds`
returns 0 ("now"). -/
theorem c1_eta_now_amended (currentLevel targetLevel : ℚ)
    (hc : FLOOD_LEVEL < currentLevel) (ht : FLOOD_LEVEL < targetLevel) :
    etaToFloodSeconds currentLevel targetLevel = EtaResult.seconds 0 := by
  unfold etaToFloodSeconds
  rw [if_neg (by simp only [not_le]; linarith), if_pos (by linarith)]

/-- C1 witness: the amended theorem applied at current = 2, target = 3. -/
theorem c1_eta_now_amended_witness :
    etaToFloodSeconds 2 3 = EtaResult.seconds 0 :=
  c1_eta_now_amended 2 3 (by norm_num [FLOOD_LEVEL]) (by norm_num [FLOOD_LEVEL])

/-- C2: for every previous smoothed score and every raw instantaneous score,
one likelihood update (EMA smoothing followed by the step clamp) changes
the smoothed score by at most `MAX_STEP = 4` in absolute value. -/
theorem c2_likelihood_step_bound (prev raw : ℚ) :
    |lkUpdate prev raw - prev| ≤ MAX_STEP := by
  have hms : (0 : ℚ) ≤ MAX_STEP := by norm_num [MAX_STEP]
  have hlo : prev - MAX_STEP ≤ lkUpdate prev raw := le_max_left _ _
  have hhi : lkUpdate prev raw ≤ prev + MAX_STEP := by
    apply max_le (by linarith)
    exact min_le_left _ _
  rw [abs_le]
  constructor <;> linarith

/-- The source's bucket cascade agrees with the spec's bucket table at every
rounded score. -/
lemma stageBucket_eq_specBucketTable (p : ℤ) :
    stageBucket p = specBucketTable p := by
  unfold stageBucket specBucketTable BUCKETS_DANGER_MIN BUCKETS_WARNING_MIN
    BUCKETS_WATCH_MIN
  split_ifs <;> first | rfl | omega

/-- The bucket cascade never produces the subsiding stage. -/
lemma stageBucket_ne_subsiding (p : ℤ) :
    stageBucket p ≠ FloodStage.subsiding := by
  unfold stageBucket
  split_ifs <;> simp

/-- A stage maps to the SUBSIDING label exactly when it is the subsiding
stage. -/
lemma stageToStatusLabel_eq_SUBSIDING (s : FloodStage) :
    stageToStatusLabel s = StatusLabel.SUBSIDING ↔ s = FloodStage.subsiding := by
  cases s <;> simp [stageToStatusLabel]

/-- C3: whenever the SUBSIDING override does not apply, the stage effect
rounds the smoothed likelihood to the nearest integer and classifies it by
the spec's contiguous, exhaustive bucket table: NORMAL below 40, WATCH on
40–69, WARNING on 70–79, DANGER at 80 and above. -/
theorem c3_bucket_classification (phase : SimPhase) (close : Bool) (lk : ℚ)
    (etaSeconds : Option ℤ) (etaNow dangerAlerted : Bool)
    (h : ¬(phase = SimPhase.rampDown ∧ close = false)) :
    (stageEffect phase close lk etaSeconds etaNow dangerAlerted).stage =
      specBucketTable (jsRound lk) := by
  rw [← stageBucket_eq_specBucketTable]
  unfold stageEffect
  rw [if_neg h]
  split_ifs <;> rfl

/-- C3 witness: the theorem applied at phase idle, score 55 (a WATCH score). -/
theorem c3_bucket_classification_witness :
    (stageEffect SimPhase.idle true 55 none false false).stage =
      specBucketTable (jsRound (55 : ℚ)) :=
  c3_bucket_classification SimPhase.idle true 55 none false false (by simp)

/-- C6: after the stage effect runs, the displayed status label is SUBSIDING
exactly when the phase was rampDown and some tracked sensor was outside
its baseline tolerance (`nearBaseline S = false`); and when every tracked
metric is within tolerance during rampDown, the phase transitions to idle
and the status reverts to the likelihood-bucket result. -/
theorem c6_subsiding_override (phase : SimPhase) (S : Sensors) (lk : ℚ)
    (etaSeconds : Option ℤ) (etaNow dangerAlerted : Bool) :
    (statusLabel
        (stageEffect phase (nearBaseline S) lk etaSeconds etaNow
          dangerAlerted).phase
        (stageEffect phase (nearBaseline S) lk etaSeconds etaNow
          dangerAlerted).stage = StatusLabel.SUBSIDING
      ↔ phase = SimPhase.rampDown ∧ nearBaseline S = false) ∧
    (phase = SimPhase.rampDown → nearBaseline S = true →
      (stageEffect phase (nearBaseline S) lk etaSeconds etaNow
          dangerAlerted).phase = SimPhase.idle ∧
      (stageEffect phase (nearBaseline S) lk etaSeconds etaNow
          dangerAlerted).stage = stageBucket (jsRound lk) ∧
      statusLabel
          (stageEffect phase (nearBaseline S) lk etaSeconds etaNow
            dangerAlerted).phase
          (stageEffect phase (nearBaseline S) lk etaSeconds etaNow
            dangerAlerted).stage =
        stageToStatusLabel (stageBucket (jsRound lk))) := by
  cases phase <;> cases hc : nearBaseline S <;>
    simp [stageEffect, statusLabel, stageBucket_ne_subsiding,
      stageToStatusLabel_eq_SUBSIDING]

/-- C6 witness: with all sensors exactly at baseline during rampDown, the
phase transitions to idle and the status is the bucket result. -/
theorem c6_subsiding_override_witness :
    (stageEffect SimPhase.rampDown (nearBaseline BASE) 10 (some 5) false
        true).phase = SimPhase.idle ∧
      (stageEffect SimPhase.rampDown (nearBaseline BASE) 10 (some 5) false
          true).stage = stageBucket (jsRound (10 : ℚ)) ∧
      statusLabel
          (stageEffect SimPhase.rampDown (nearBaseline BASE) 10 (some 5) false
            true).phase
          (stageEffect SimPhase.rampDown (nearBaseline BASE) 10 (some 5) false
            true).stage = stageToStatusLabel (stageBucket (jsRound (10 : ℚ))) :=
  (c6_subsiding_override SimPhase.rampDown BASE 10 (some 5) false true).2 rfl
    (by norm_num [nearBaseline, approxEqual, BASE, BASELINE_EPS])

/-- C4: issuing "start demo" twice in quick succession, from any state,
leaves the system in the same state as issuing it once, on both control
surfaces: `startPMMode` (control.tsx) is idempotent, fully resets the
hold timer and the one-shot flag before entering rampingUp with rain 0
(`resetPM` clears every timer and flag), and `onStartDemo`
(control-lite.tsx) is idempotent at a fixed click timestamp and leaves
exactly the rampUp phase active with the ETA display and the danger
alert flag reset. -/
theorem c4_idempotent_restart :
    (∀ s : PMControlState, startPMMode (startPMMode s) = startPMMode s) ∧
    (∀ s : PMControlState,
      (startPMMode s).pm = PMState.rampingUp ∧
      (startPMMode s).rain = 0 ∧
      (startPMMode s).holdActive = false ∧
      (startPMMode s).didStartHold = false) ∧
    (∀ s : PMControlState,
      (resetPM s).pm = PMState.idle ∧
      (resetPM s).rampActive = false ∧
      (resetPM s).holdActive = false ∧
      (resetPM s).didStartHold = false) ∧
    (∀ (now : ℚ) (s : LiteDemoState),
      onStartDemo now (onStartDemo now s) = onStartDemo now s) ∧
    (∀ (now : ℚ) (s : LiteDemoState),
      (onStartDemo now s).phase = SimPhase.rampUp ∧
      (onStartDemo now s).etaSeconds = none ∧
      (onStartDemo now s).etaNow = false ∧
      (onStartDemo now s).dangerAlerted = false ∧
      (onStartDemo now s).dangerSince = none) := by
  refine ⟨fun s => rfl, fun s => ⟨rfl, rfl, rfl, rfl⟩,
    fun s => ⟨rfl, rfl, rfl, rfl⟩, fun now s => rfl,
    fun now s => ⟨rfl, rfl, rfl, rfl, rfl⟩⟩

/-- C5: the windowed countdown behaves as specified: (1) when the smoothed
likelihood is in `[95, 99)` with no countdown value present, the effect
starts the countdown at exactly 20 seconds and schedules the timer;
(2) a live countdown decrements by 1 per firing; (3) it never goes below
1; (4) a likelihood below 95 while a countdown is active cancels the
timer and clears the displayed value; (5) running the effect while a
countdown already exists and the likelihood is still in the window is a
no-op. -/
theorem c5_windowed_countdown :
    (∀ (st : EtaState) (p : ℚ), st.etaNow = false → COUNTDOWN_START_PCT ≤ p →
      p < PEAK_NOW_PCT → st.etaSeconds = none →
      etaEffect p st =
        { st with etaSeconds := some COUNTDOWN_START_S,
                  countdownActive := true }) ∧
    (∀ n : ℤ, 1 < n → countdownTick (some n) = some (n - 1)) ∧
    (∀ n m : ℤ, 1 ≤ n → countdownTick (some n) = some m → 1 ≤ m) ∧
    (∀ (st : EtaState) (p : ℚ) (n : ℤ), st.etaNow = false →
      p < COUNTDOWN_START_PCT → st.etaSeconds = some n →
      (etaEffect p st).etaSeconds = none ∧
        (etaEffect p st).countdownActive = false) ∧
    (∀ (st : EtaState) (p : ℚ) (n : ℤ), st.etaNow = false →
      COUNTDOWN_START_PCT ≤ p → p < PEAK_NOW_PCT → st.etaSeconds = some n →
      etaEffect p st = st) := by
  refine ⟨?_, ?_, ?_, ?_, ?_⟩
  · intro st p h1 h2 h3 h4
    unfold etaEffect
    rw [if_neg (by simp [h1]), if_pos ⟨h2, h3, h4⟩]
  · intro n hn
    simp only [countdownTick]
    rw [if_neg (by omega)]
  · intro n m hn hm
    simp only [countdownTick] at hm
    split_ifs at hm <;> simp only [Option.some.injEq] at hm <;> omega
  · intro st p n h1 h2 h3
    have hne : st.etaSeconds ≠ none := by rw [h3]; simp
    have hlt : p < PEAK_NOW_PCT :=
      lt_trans h2 (by norm_num [COUNTDOWN_START_PCT, PEAK_NOW_PCT])
    unfold etaEffect
    rw [if_neg (by simp [h1]),
      if_neg (by intro hcon; exact absurd hcon.1 (not_le.mpr h2)),
      if_neg (not_le.mpr hlt), if_pos ⟨h2, hne⟩]
    exact ⟨rfl, rfl⟩
  · intro st p n h1 h2 h3 h4
    have hne : st.etaSeconds ≠ none := by rw [h4]; simp
    unfold etaEffect
    rw [if_neg (by simp [h1]), if_neg (by intro hcon; exact hne hcon.2.2),
      if_neg (not_le.mpr h3),
      if_neg (by intro hcon; exact absurd h2 (not_le.mpr hcon.1))]

/-- C5 witness: each part of the countdown theorem at concrete inputs — a
start at likelihood 96, a tick from 5 to 4, the floor at 1, a cancel at
likelihood 90, and a no-op restart attempt at likelihood 96.
`idleEta` is the display state with no countdown, `countingEta` one with
a live countdown at 7 seconds. -/
theorem c5_windowed_countdown_witness :
    etaEffect 96 idleEta =
      { idleEta with etaSeconds := some COUNTDOWN_START_S,
                     countdownActive := true } ∧
    countdownTick (some 5) = some (5 - 1) ∧
    (1 : ℤ) ≤ 1 ∧
    ((etaEffect 90 countingEta).etaSeconds = none ∧
      (etaEffect 90 countingEta).countdownActive = false) ∧
    etaEffect 96 countingEta = countingEta :=
  ⟨c5_windowed_countdown.1 idleEta 96 rfl (by norm_num [COUNTDOWN_START_PCT])
      (by norm_num [PEAK_NOW_PCT]) rfl,
    c5_windowed_countdown.2.1 5 (by norm_num),
    c5_windowed_countdown.2.2.1 1 1 le_rfl (by simp [countdownTick]),
    c5_windowed_countdown.2.2.2.1 countingEta 90 7 rfl
      (by norm_num [COUNTDOWN_START_PCT]) rfl,
    c5_windowed_countdown.2.2.2.2 countingEta 96 7 rfl
      (by norm_num [COUNTDOWN_START_PCT]) (by norm_num [PEAK_NOW_PCT]) rfl⟩

/-- The ETA effect preserves the display invariant. -/
lemma etaEffect_preserves_inv (p : ℚ) (e : EtaState)
    (h1 : e.etaNow = true → e.etaSeconds = none)
    (h2 : ∀ n : ℤ, e.etaSeconds = some n → 0 ≤ n) :
    ((etaEffect p e).etaNow = true → (etaEffect p e).etaSeconds = none) ∧
      (∀ n : ℤ, (etaEffect p e).etaSeconds = some n → 0 ≤ n) := by
  unfold etaEffect
  split_ifs with ha hb hc hd
  · exact ⟨h1, h2⟩
  · refine ⟨fun hx => absurd hx ha, fun n hn => ?_⟩
    simp only at hn
    injection hn with hn2
    rw [← hn2]
    norm_num [COUNTDOWN_START_S]
  · exact ⟨fun _ => rfl, fun n hn => by simp at hn⟩
  · exact ⟨fun _ => rfl, fun n hn => by simp at hn⟩
  · exact ⟨h1, h2⟩

/-- A countdown firing keeps the displayed value non-negative. -/
lemma countdownTick_nonneg (v : Option ℤ)
    (h : ∀ n : ℤ, v = some n → 0 ≤ n) :
    ∀ n : ℤ, countdownTick v = some n → 0 ≤ n := by
  intro n hn
  cases v with
  | none => simp [countdownTick] at hn
  | some k =>
    have hk := h k rfl
    simp only [countdownTick] at hn
    split_ifs at hn <;> simp only [Option.some.injEq] at hn <;> omega

/-- One event of the scripted surface preserves the ETA display invariant. -/
lemma sysStep_preserves_inv (a b : SysState) (hstep : SysStep a b)
    (h1 : a.eta.etaNow = true → a.eta.etaSeconds = none)
    (h2 : ∀ n : ℤ, a.eta.etaSeconds = some n → 0 ≤ n) :
    (b.eta.etaNow = true → b.eta.etaSeconds = none) ∧
      (∀ n : ℤ, b.eta.etaSeconds = some n → 0 ≤ n) := by
  cases hstep with
  | etaUpdate p => exact etaEffect_preserves_inv p a.eta h1 h2
  | countTick ht =>
    refine ⟨fun hnow => ?_, countdownTick_nonneg a.eta.etaSeconds h2⟩
    have hnone := h1 hnow
    show countdownTick a.eta.etaSeconds = none
    rw [hnone]
    rfl
  | peakEnter ht => exact ⟨fun _ => rfl, fun n hn => by simp at hn⟩
  | peakExit ht => exact ⟨fun _ => rfl, fun n hn => by simp at hn⟩
  | stageIdle ht => exact ⟨fun _ => rfl, fun n hn => by simp at hn⟩
  | startDemo => exact ⟨fun _ => rfl, fun n hn => by simp at hn⟩

/-- C7: in every reachable state of the scripted surface, the "now" flag and
a numeric countdown value are mutually exclusive (when `etaNow` holds,
`etaSeconds` is null), and a present countdown value is non-negative. -/
theorem c7_eta_invariant (s : SysState) (h : SysReachable s) :
    (s.eta.etaNow = true → s.eta.etaSeconds = none) ∧
      (∀ n : ℤ, s.eta.etaSeconds = some n → 0 ≤ n) := by
  unfold SysReachable at h
  induction h with
  | refl => exact ⟨fun _ => rfl, fun n hn => by simp [initState] at hn⟩
  | tail hab hbc ih => exact sysStep_preserves_inv _ _ hbc ih.1 ih.2

/-- C7 witness: the invariant theorem applied to the state reached from the
initial state by one ETA-effect event at likelihood 96, which starts the
countdown at `COUNTDOWN_START_S`; the invariant yields its
non-negativity. -/
theorem c7_eta_invariant_witness : (0 : ℤ) ≤ COUNTDOWN_START_S :=
  (c7_eta_invariant { initState with eta := etaEffect 96 initState.eta }
      (Relation.ReflTransGen.single (SysStep.etaUpdate 96 initState))).2
    COUNTDOWN_START_S
    (by norm_num [etaEffect, initState, COUNTDOWN_START_PCT, PEAK_NOW_PCT])

/-- C8: for either message kind, a subscriber registered after a publish
receives the last published payload for that kind exactly once (a
singleton delivery list) at subscription time, from the durable cache;
a later publish of the same kind replaces the delivered payload, and a
publish of the other kind does not disturb it. -/
theorem c8_late_joiner_delivery (store : DurableStore) (t : ℚ)
    (d : RiverSensors) (u : ℚ) (e : BusSkyData) :
    addSensorsListenerImmediate (publishSensors store t d) = [d] ∧
    addSkyListenerImmediate (publishSky store u e) = [e] ∧
    (∀ (t2 : ℚ) (d2 : RiverSensors),
      addSensorsListenerImmediate
        (publishSensors (publishSensors store t d) t2 d2) = [d2]) ∧
    addSensorsListenerImmediate (publishSky (publishSensors store t d) u e) =
      [d] := by
  exact ⟨rfl, rfl, fun t2 d2 => rfl, rfl⟩

/-- C9: as stated, the claim asserts that any out-of-range field falls back
to the previous known value.  It is false: the out-of-range finite
likelihood 150 is clamped to 100 and displayed, not replaced by the
previous value 10. -/
theorem c9_field_fallback_counterexample :
    (normalizeSky outOfRangeSkyInput prevSkyData).floodLikelihoodPct = 100 ∧
      prevSkyData.floodLikelihoodPct = 10 ∧
      (normalizeSky outOfRangeSkyInput prevSkyData).floodLikelihoodPct ≠
        prevSkyData.floodLikelihoodPct := by
  refine ⟨?_, rfl, ?_⟩
  · show min 100 (max 0 (jsRound 150)) = 100
    norm_num [jsRound]
  · show min 100 (max 0 (jsRound 150)) ≠ 10
    norm_num [jsRound]

/-- C9 (amended): every field of an incoming snapshot is coerced
individually; a non-finite field (NaN, the infinities, or an absent
field coerced to NaN) falls back to the previous known value, while a
finite out-of-range field is clamped into range — likelihood to
`[0, 100]`, ETA to `[0, ∞)` — rather than falling back; a non-string
status falls back to the previous status.  No NaN or undefined reaches
the displayed numeric state. -/
theorem c9_field_coercion_amended (input : SkyInput) (prev : SkyData) :
    (jsIsFinite input.floodLikelihoodPct = false →
      (normalizeSky input prev).floodLikelihoodPct =
        prev.floodLikelihoodPct) ∧
    (∀ q : ℚ, input.floodLikelihoodPct = JsNum.finite q →
      (normalizeSky input prev).floodLikelihoodPct =
          min 100 (max 0 (jsRound q)) ∧
        0 ≤ (normalizeSky input prev).floodLikelihoodPct ∧
        (normalizeSky input prev).floodLikelihoodPct ≤ 100) ∧
    (jsIsFinite input.etaSeconds = false →
      (normalizeSky input prev).etaSeconds = prev.etaSeconds) ∧
    (∀ q : ℚ, input.etaSeconds = JsNum.finite q →
      (normalizeSky input prev).etaSeconds = max 0 ⌊q⌋ ∧
        0 ≤ (normalizeSky input prev).etaSeconds) ∧
    (input.status = JsStatusVal.notStr →
      (normalizeSky input prev).status = prev.status) := by
  rcases input with ⟨pf, ef, sf⟩
  refine ⟨?_, ?_, ?_, ?_, ?_⟩
  · intro h
    cases pf <;> simp_all [jsIsFinite, normalizeSky]
  · intro q hq
    subst hq
    refine ⟨rfl, ?_, ?_⟩ <;> (simp only [normalizeSky]; omega)
  · intro h
    cases ef <;> simp_all [jsIsFinite, normalizeSky]
  · intro q hq
    subst hq
    refine ⟨rfl, ?_⟩
    simp only [normalizeSky]
    omega
  · intro h
    subst h
    rfl

/-- C9 witness: the amended theorem at a snapshot with NaN fields (both fall
back to the previous values) and at a snapshot with a finite
out-of-range likelihood (clamped to 100) and a non-string status. -/
theorem c9_field_coercion_amended_witness :
    (normalizeSky garbledSkyInput prevSkyData).floodLikelihoodPct =
        prevSkyData.floodLikelihoodPct ∧
    ((normalizeSky outOfRangeSkyInput prevSkyData).floodLikelihoodPct =
        min 100 (max 0 (jsRound 150)) ∧
      0 ≤ (normalizeSky outOfRangeSkyInput prevSkyData).floodLikelihoodPct ∧
      (normalizeSky outOfRangeSkyInput prevSkyData).floodLikelihoodPct ≤
        100) ∧
    (normalizeSky garbledSkyInput prevSkyData).etaSeconds =
        prevSkyData.etaSeconds ∧
    ((normalizeSky outOfRangeSkyInput prevSkyData).etaSeconds =
        max 0 ⌊(600 : ℚ)⌋ ∧
      0 ≤ (normalizeSky outOfRangeSkyInput prevSkyData).etaSeconds) ∧
    (normalizeSky outOfRangeSkyInput prevSkyData).status =
      prevSkyData.status :=
  ⟨(c9_field_coercion_amended garbledSkyInput prevSkyData).1 rfl,
    (c9_field_coercion_amended outOfRangeSkyInput prevSkyData).2.1 150 rfl,
    (c9_field_coercion_amended garbledSkyInput prevSkyData).2.2.1 rfl,
    (c9_field_coercion_amended outOfRangeSkyInput prevSkyData).2.2.2.1 600 rfl,
    (c9_field_coercion_amended outOfRangeSkyInput prevSkyData).2.2.2.2 rfl⟩

/-- C10: `normalizeSky` accepts any string as the status field — the
returned snapshot carries any incoming string unchanged, including
strings outside the NORMAL/WATCH/WARNING/DANGER enum — and only a
non-string status falls back to the previous value. -/
theorem c10_status_unvalidated (input : SkyInput) (prev : SkyData) :
    (∀ s : String, input.status = JsStatusVal.jstr s →
      (normalizeSky input prev).status = some s) ∧
    (input.status = JsStatusVal.notStr →
      (normalizeSky input prev).status = prev.status) := by
  rcases input with ⟨pf, ef, sf⟩
  constructor
  · intro s hs
    subst hs
    rfl
  · intro h
    subst h
    rfl

/-- C10 witness: a status string outside the enum passes through unchanged;
a non-string status falls back to the previous status. -/
theorem c10_status_unvalidated_witness :
    (normalizeSky garbledSkyInput prevSkyData).status = some ("BOGUS") ∧
      (normalizeSky outOfRangeSkyInput prevSkyData).status =
        prevSkyData.status :=
  ⟨(c10_status_unvalidated garbledSkyInput prevSkyData).1 ("BOGUS") rfl,
    (c10_status_unvalidated outOfRangeSkyInput prevSkyData).2 rfl⟩

end FloodDemo
